import Mathlib

/-!
Shallow embedding of the IoTronic Lightning-rod (Go edition) agent, covering
the pieces the specification talks about:

* the WebService (reverse-proxy) manager (`internal/modules/webservice`):
  `enableWebService`, `disableWebService` / `removeWebService`, `reloadNginx`,
  and the RPC handler `handleEnableWebService`;
* the Service (tunnel) manager (`internal/modules/service`):
  `exposeService`, `unexposeService` / `stopService`, `saveServicesConfig`,
  and the RPC handlers `handleExposeService` / `handleUnexposeService`;
* the Board identity / settings component (`internal/board`, `internal/config`):
  `LoadSettings`, `loadWampConfig`, `UpdateStatus`;
* the capability-registration discipline (`internal/wamp/client.go`
  `Connect` / `Reconnect` / `KeepAlive` together with each manager's
  `registerRPCs`), modelled as a small trace semantics.

Go maps (`map[string]*T`) are modelled as association lists with at most one
entry per key; the file system (nginx configuration directory, `services.json`,
`settings.json`) is modelled as data carried in the state, with the outcome of
the external effects (file write, nginx test/reload, process spawn) supplied
as explicit environment parameters, since the Go code only branches on their
success or failure.
-/

namespace LightningRod

/-- Decidable equality of Go-style results (`Except`), needed to evaluate
the operations on concrete inputs. -/
instance {ε α : Type} [DecidableEq ε] [DecidableEq α] : DecidableEq (Except ε α) := fun a b =>
  match a, b with
  | Except.ok x, Except.ok y =>
      if h : x = y then isTrue (by rw [h]) else isFalse (fun hc => by cases hc; exact h rfl)
  | Except.error x, Except.error y =>
      if h : x = y then isTrue (by rw [h]) else isFalse (fun hc => by cases hc; exact h rfl)
  | Except.ok _, Except.error _ => isFalse (fun hc => by cases hc)
  | Except.error _, Except.ok _ => isFalse (fun hc => by cases hc)

/-! ## String-keyed maps (Go `map[string]*T` and on-disk directories) -/

namespace SM

/-- Lookup in an association list, first match wins (Go map indexing). -/
def lookup {α : Type} : List (String × α) → String → Option α
  | [], _ => none
  | (k1, v) :: rest, k => if k1 = k then some v else lookup rest k

/-- Remove every entry with the given key (Go `delete` / `os.Remove`). -/
def erase {α : Type} : List (String × α) → String → List (String × α)
  | [], _ => []
  | (k1, v) :: rest, k => if k1 = k then erase rest k else (k1, v) :: erase rest k

/-- Insert or replace the entry for a key (Go `m[k] = v` / `os.WriteFile`). -/
def insert {α : Type} (m : List (String × α)) (k : String) (v : α) : List (String × α) :=
  (k, v) :: erase m k

/-- Number of entries carrying the given key. -/
def count {α : Type} : List (String × α) → String → Nat
  | [], _ => 0
  | (k1, _) :: rest, k => (if k1 = k then 1 else 0) + count rest k

theorem lookup_insert_self {α : Type} (m : List (String × α)) (k : String) (v : α) :
    lookup (insert m k v) k = some v := by
  simp [insert, lookup]

theorem lookup_erase_self {α : Type} (m : List (String × α)) (k : String) :
    lookup (erase m k) k = none := by
  induction m with
  | nil => rfl
  | cons e rest ih =>
      obtain ⟨k1, v⟩ := e
      by_cases h : k1 = k
      · simp [erase, h, ih]
      · simp [erase, lookup, h, ih]

theorem lookup_erase_ne {α : Type} (m : List (String × α)) (k q : String) (h : k ≠ q) :
    lookup (erase m k) q = lookup m q := by
  induction m with
  | nil => rfl
  | cons e rest ih =>
      obtain ⟨k1, v⟩ := e
      by_cases h1 : k1 = k
      · subst h1
        simp [erase, lookup, h, ih]
      · simp [erase, lookup, h1, ih]

theorem lookup_insert_ne {α : Type} (m : List (String × α)) (k q : String) (v : α)
    (h : k ≠ q) : lookup (insert m k v) q = lookup m q := by
  simp [insert, lookup, h, lookup_erase_ne m k q h]

theorem count_erase_self {α : Type} (m : List (String × α)) (k : String) :
    count (erase m k) k = 0 := by
  induction m with
  | nil => rfl
  | cons e rest ih =>
      obtain ⟨k1, v⟩ := e
      by_cases h : k1 = k
      · simp [erase, h, ih]
      · simp [erase, count, h, ih]

theorem count_insert_self {α : Type} (m : List (String × α)) (k : String) (v : α) :
    count (insert m k v) k = 1 := by
  simp [insert, count, count_erase_self]

end SM

/-! ## WAMP invocation arguments and RPC results

Positional WAMP arguments arrive in Go as `[]any`; the handlers inspect them
with type assertions `x.(string)` / `x.(float64)`.  JSON numbers (ports) are
modelled as integers. -/

/-- A positional WAMP argument (Go `any`). -/
inductive WArg
  | str (s : String)
  | num (n : Int)
  | boolv (b : Bool)
  | other
deriving DecidableEq, Repr

/-- Go two-valued type assertion with the result discarded: `v, _ := x.(string)`
yields the zero value `""` when the assertion fails. -/
def WArg.asString : WArg → String
  | WArg.str s => s
  | _ => ""

/-- Go two-valued type assertion with the result discarded: `v, _ := x.(float64)`
yields the zero value `0` when the assertion fails. -/
def WArg.asFloat : WArg → Int
  | WArg.num n => n
  | _ => 0

/-- Go checked type assertion `v, ok := x.(string)`. -/
def WArg.asStringOk : WArg → Option String
  | WArg.str s => some s
  | _ => none

/-- Go checked type assertion `v, ok := x.(float64)`. -/
def WArg.asFloatOk : WArg → Option Int
  | WArg.num n => some n
  | _ => none

theorem WArg.asString_of_not_string (a : WArg) (h : a.asStringOk = none) :
    a.asString = "" := by
  cases a <;> simp_all [WArg.asStringOk, WArg.asString]

theorem WArg.asFloat_of_not_num (a : WArg) (h : a.asFloatOk = none) :
    a.asFloat = 0 := by
  cases a <;> simp_all [WArg.asFloatOk, WArg.asFloat]

/-- The structured record every RPC handler returns
(`{result: "SUCCESS"|"ERROR", message: ...}`; the optional `data` field is
not needed by the properties below). -/
structure RpcResult where
  result : String
  message : String
deriving DecidableEq, Repr

/-! ## WebService (reverse-proxy) manager — `internal/modules/webservice` -/

/-- `WebServiceInfo` from the webservice manager; `Domain` is never assigned
by the Go code and stays at its zero value. -/
structure WebServiceInfo where
  name : String
  localPort : Int
  publicPort : Int
  domain : String
  status : String
deriving DecidableEq, Repr

/-- Outcomes of the external effects `enableWebService` branches on:
`os.WriteFile` of the conf artifact, `nginx -t`, and `nginx -s reload`. -/
structure NginxEnv where
  writeOk : Bool
  testOk : Bool
  reloadOk : Bool
deriving DecidableEq, Repr

/-- Mutable state of the webservice manager: the in-memory `webservices` map
and the contents of the nginx configuration directory plus any other file the
manager could write (path to contents). -/
structure WsState where
  webservices : List (String × WebServiceInfo)
  fs : List (String × String)
deriving DecidableEq, Repr

/-- `filepath.Join(nginxConfDir, fmt.Sprintf("lr_%s.conf", name))`. -/
def confPath (name : String) : String :=
  "/etc/nginx/conf.d/lr_" ++ name ++ ".conf"

/-- The fixed nginx server-block template, binding the public port to the
local port (braces written as escapes). -/
def nginxConf (publicPort localPort : Int) : String :=
  "\nserver \x7b\n    listen " ++ toString publicPort ++
  ";\n    server_name _;\n\n    location / \x7b\n        proxy_pass http://127.0.0.1:" ++
  toString localPort ++
  ";\n        proxy_set_header Host $host;\n        proxy_set_header X-Real-IP $remote_addr;\n        proxy_set_header X-Forwarded-For $proxy_add_x_forwarded_for;\n        proxy_set_header X-Forwarded-Proto $scheme;\n    \x7d\n\x7d\n"

/-- `reloadNginx`: run `nginx -t`, then `nginx -s reload`; the first failure
is returned as an error (the Go message embeds the command output, elided
here). -/
def reloadNginx (env : NginxEnv) : Except String Unit :=
  if env.testOk = false then Except.error "nginx config test failed"
  else if env.reloadOk = false then Except.error "nginx reload failed"
  else Except.ok ()

/-- `enableWebService`: fail if the name is present; write the conf artifact;
reload nginx, removing the artifact again if the reload (test or reload
subcommand) fails; on success record the entry.  The pair returns the Go
error result together with the post-state (the Go method mutates the
receiver in place). -/
def enableWebService (env : NginxEnv) (s : WsState) (name : String)
    (localPort publicPort : Int) : Except String Unit × WsState :=
  if (SM.lookup s.webservices name).isSome then
    (Except.error ("webservice " ++ name ++ " already enabled"), s)
  else if env.writeOk = false then
    (Except.error "failed to write nginx config", s)
  else
    let cp := confPath name
    let s1 : WsState := { s with fs := SM.insert s.fs cp (nginxConf publicPort localPort) }
    match reloadNginx env with
    | Except.error e =>
        (Except.error ("failed to reload nginx: " ++ e), { s1 with fs := SM.erase s1.fs cp })
    | Except.ok _ =>
        (Except.ok (), { s1 with
          webservices := SM.insert s1.webservices name
            { name := name, localPort := localPort, publicPort := publicPort,
              domain := "", status := "enabled" } })

/-- `removeWebService` (called with the lock held): fail if the name is
absent; remove the conf artifact, tolerating an already-absent file (a
removal error is only logged); reload nginx best-effort (its result is
discarded after logging); delete the map entry. -/
def removeWebService (env : NginxEnv) (s : WsState) (name : String) :
    Except String Unit × WsState :=
  if (SM.lookup s.webservices name).isNone then
    (Except.error ("webservice " ++ name ++ " not found"), s)
  else
    let s1 : WsState := { s with fs := SM.erase s.fs (confPath name) }
    let _ := reloadNginx env
    (Except.ok (), { s1 with webservices := SM.erase s1.webservices name })

/-- `disableWebService`: take the lock and delegate to `removeWebService`. -/
def disableWebService (env : NginxEnv) (s : WsState) (name : String) :
    Except String Unit × WsState :=
  removeWebService env s name

/-- `handleEnableWebService`: require three positional arguments, then read
them with unchecked type assertions (failed assertions silently coerce to
zero values) and call `enableWebService`. -/
def handleEnableWebService (env : NginxEnv) (s : WsState) (args : List WArg) :
    RpcResult × WsState :=
  if args.length < 3 then
    ({ result := "ERROR",
       message := "Missing arguments: name, local_port, and public_port required" }, s)
  else
    let name := (args.getD 0 WArg.other).asString
    let localPort := (args.getD 1 WArg.other).asFloat
    let publicPort := (args.getD 2 WArg.other).asFloat
    match enableWebService env s name localPort publicPort with
    | (Except.error e, s1) =>
        ({ result := "ERROR", message := "Failed to enable webservice: " ++ e }, s1)
    | (Except.ok _, s1) =>
        ({ result := "SUCCESS", message := "Webservice " ++ name ++ " enabled" }, s1)

/-- `handleDisableWebService`: require one positional argument, read it with
an unchecked assertion, and call `disableWebService`. -/
def handleDisableWebService (env : NginxEnv) (s : WsState) (args : List WArg) :
    RpcResult × WsState :=
  if args.length < 1 then
    ({ result := "ERROR", message := "Missing argument: name required" }, s)
  else
    let name := (args.getD 0 WArg.other).asString
    match disableWebService env s name with
    | (Except.error e, s1) =>
        ({ result := "ERROR", message := "Failed to disable webservice: " ++ e }, s1)
    | (Except.ok _, s1) =>
        ({ result := "SUCCESS", message := "Webservice " ++ name ++ " disabled" }, s1)

/-! ## Service (tunnel) manager — `internal/modules/service` -/

/-- `ServiceInfo` from the service manager. -/
structure ServiceInfo where
  name : String
  localPort : Int
  publicURL : String
  pid : Int
  status : String
deriving DecidableEq, Repr

/-- Outcomes of the external effects the service manager branches on: the
wstun spawn (`cmd.Start`) with the pid it yields, and the
`saveServicesConfig` file write; `wstunURL` is the manager field computed in
`NewManager` from the WAMP URL. -/
structure SvcEnv where
  spawnOk : Bool
  spawnPid : Int
  saveOk : Bool
  wstunURL : String
deriving DecidableEq, Repr

/-- Mutable state of the service manager: the in-memory `services` map and
the parsed contents of the persisted `services.json` document (`none` when
the file does not exist). -/
structure SvcState where
  services : List (String × ServiceInfo)
  servicesDoc : Option (List (String × ServiceInfo))
deriving DecidableEq, Repr

/-- `exposeService`: fail if the name is present; spawn the wstun tunnel
(failure is returned as an error); record the entry with
`publicURL = wstunURL ++ "/" ++ name` and `status = "running"`; then
`saveServicesConfig` rewrites `services.json` in full — but its failure is
only logged (`log.Warnf`) and the function still returns success. -/
def exposeService (env : SvcEnv) (s : SvcState) (name : String) (localPort : Int) :
    Except String Unit × SvcState :=
  if (SM.lookup s.services name).isSome then
    (Except.error ("service " ++ name ++ " already exposed"), s)
  else if env.spawnOk = false then
    (Except.error "failed to start wstun", s)
  else
    let publicURL := env.wstunURL ++ "/" ++ name
    let info : ServiceInfo :=
      { name := name, localPort := localPort, publicURL := publicURL,
        pid := env.spawnPid, status := "running" }
    let s1 : SvcState := { s with services := SM.insert s.services name info }
    let s2 : SvcState :=
      if env.saveOk then { s1 with servicesDoc := some s1.services } else s1
    (Except.ok (), s2)

/-- `stopService` (called with the lock held): fail if the name is absent;
best-effort kill of the recorded pid (failures only logged); delete the map
entry; then `saveServicesConfig` rewrites `services.json` — again its
failure is only logged and the function still returns success. -/
def stopService (env : SvcEnv) (s : SvcState) (name : String) :
    Except String Unit × SvcState :=
  if (SM.lookup s.services name).isNone then
    (Except.error ("service " ++ name ++ " not found"), s)
  else
    let s1 : SvcState := { s with services := SM.erase s.services name }
    let s2 : SvcState :=
      if env.saveOk then { s1 with servicesDoc := some s1.services } else s1
    (Except.ok (), s2)

/-- `unexposeService`: take the lock and delegate to `stopService`. -/
def unexposeService (env : SvcEnv) (s : SvcState) (name : String) :
    Except String Unit × SvcState :=
  stopService env s name

/-- `handleExposeService`: require two positional arguments and reject a
wrongly typed service name or local port with an ERROR result before
touching any state. -/
def handleExposeService (env : SvcEnv) (s : SvcState) (args : List WArg) :
    RpcResult × SvcState :=
  if args.length < 2 then
    ({ result := "ERROR",
       message := "Missing arguments: service_name and local_port required" }, s)
  else
    match (args.getD 0 WArg.other).asStringOk with
    | none => ({ result := "ERROR", message := "Invalid service_name type" }, s)
    | some serviceName =>
      match (args.getD 1 WArg.other).asFloatOk with
      | none => ({ result := "ERROR", message := "Invalid local_port type" }, s)
      | some localPort =>
        match exposeService env s serviceName localPort with
        | (Except.error e, s1) =>
            ({ result := "ERROR", message := "Failed to expose service: " ++ e }, s1)
        | (Except.ok _, s1) =>
            ({ result := "SUCCESS",
               message := "Service " ++ serviceName ++ " exposed on port " ++
                 toString localPort }, s1)

/-- `handleUnexposeService`: require one positional argument and reject a
wrongly typed service name with an ERROR result. -/
def handleUnexposeService (env : SvcEnv) (s : SvcState) (args : List WArg) :
    RpcResult × SvcState :=
  if args.length < 1 then
    ({ result := "ERROR", message := "Missing argument: service_name required" }, s)
  else
    match (args.getD 0 WArg.other).asStringOk with
    | none => ({ result := "ERROR", message := "Invalid service_name type" }, s)
    | some serviceName =>
      match unexposeService env s serviceName with
      | (Except.error e, s1) =>
          ({ result := "ERROR", message := "Failed to unexpose service: " ++ e }, s1)
      | (Except.ok _, s1) =>
          ({ result := "SUCCESS", message := "Service " ++ serviceName ++ " unexposed" }, s1)

/-! ## Board identity, settings and endpoint selection —
`internal/board`, `internal/config` -/

/-- `config.WampAgent`: one control-plane endpoint. -/
structure WampAgent where
  url : String
  realm : String
deriving DecidableEq, Repr

/-- `config.WampConfiguration`: the two endpoint variants carried in
`settings.json`. -/
structure WampConfiguration where
  mainAgent : Option WampAgent
  registrationAgent : Option WampAgent
deriving DecidableEq, Repr

/-- `config.BoardConfig`: board identity and status as persisted.  The
`Location` / `Extra` JSON maps are modelled with string values; their
contents never matter to the agent's control flow. -/
structure BoardConfig where
  uuid : String
  code : String
  name : String
  status : String
  btype : String
  mobile : Bool
  agent : String
  createdAt : String
  updatedAt : String
  location : List (String × String)
  extra : List (String × String)
deriving DecidableEq, Repr

/-- `config.IotronicSettings`. -/
structure IotronicSettings where
  board : BoardConfig
  wamp : WampConfiguration
  extra : List (String × String)
deriving DecidableEq, Repr

/-- `config.BoardSettings`: the persisted `settings.json` document. -/
structure BoardSettings where
  iotronic : IotronicSettings
deriving DecidableEq, Repr

/-- `board.Board`: the in-memory board state (the `cfg` pointer and lock are
not data). -/
structure Board where
  uuid : String
  code : String
  name : String
  status : String
  btype : String
  mobile : Bool
  agent : String
  createdAt : String
  updatedAt : String
  location : List (String × String)
  extra : List (String × String)
  sessionID : String
  wampConfig : Option WampAgent
  settings : BoardSettings
deriving DecidableEq, Repr

/-- The zero-valued `Board` a fresh `board.New` starts from before
`LoadSettings` runs. -/
def emptyBoard : Board :=
  { uuid := "", code := "", name := "", status := "", btype := "", mobile := false,
    agent := "", createdAt := "", updatedAt := "", location := [], extra := [],
    sessionID := "", wampConfig := none,
    settings := { iotronic :=
      { board := { uuid := "", code := "", name := "", status := "", btype := "",
                   mobile := false, agent := "", createdAt := "", updatedAt := "",
                   location := [], extra := [] },
        wamp := { mainAgent := none, registrationAgent := none },
        extra := [] } } }

/-- `loadWampConfig`: prefer the main-agent endpoint; otherwise use the
registration endpoint when `Status` is one of `""`, `"registered"`,
`"first_boot"`; otherwise log an error (no error value is produced), force
`Status = "first_boot"` and leave `WampConfig` untouched. -/
def loadWampConfig (settings : BoardSettings) (b : Board) : Board :=
  match settings.iotronic.wamp.mainAgent with
  | some ag => { b with wampConfig := some ag }
  | none =>
    if b.status = "" ∨ b.status = "registered" ∨ b.status = "first_boot" then
      { b with wampConfig := settings.iotronic.wamp.registrationAgent }
    else
      { b with status := "first_boot" }

/-- `LoadSettings`: read `settings.json` (failure to read or parse is the
only error), copy the board fields into memory, run `loadWampConfig`, then
detect the sentinel registration code and force `Status = "first_boot"`.
Note that `LoadSettings` never writes the settings store. -/
def LoadSettings (store : Option BoardSettings) (b : Board) : Except String Board :=
  match store with
  | none => Except.error "failed to read settings file"
  | some settings =>
    let bc := settings.iotronic.board
    let b1 : Board := { b with
      settings := settings,
      uuid := bc.uuid, code := bc.code, name := bc.name, status := bc.status,
      btype := bc.btype, mobile := bc.mobile, agent := bc.agent,
      createdAt := bc.createdAt, updatedAt := bc.updatedAt,
      location := bc.location, extra := bc.extra }
    let b2 := loadWampConfig settings b1
    let b3 := if b2.code = "<REGISTRATION-TOKEN>" then { b2 with status := "first_boot" } else b2
    Except.ok b3

/-- Replace the status field inside a persisted settings document. -/
def setSettingsStatus (st : BoardSettings) (status : String) : BoardSettings :=
  { st with iotronic := { st.iotronic with
      board := { st.iotronic.board with status := status } } }

/-- Board together with the persisted `settings.json` store (`none` when the
file is missing or unreadable). -/
structure BoardSt where
  board : Board
  store : Option BoardSettings
deriving DecidableEq, Repr

/-- `UpdateStatus`: mutate the in-memory status and the in-memory settings
copy, then `config.SaveBoardSettings`; a write failure is returned to the
caller while the in-memory mutation is kept. -/
def UpdateStatus (saveOk : Bool) (bs : BoardSt) (status : String) :
    Except String Unit × BoardSt :=
  let b1 : Board := { bs.board with
    status := status, settings := setSettingsStatus bs.board.settings status }
  if saveOk then (Except.ok (), { board := b1, store := some b1.settings })
  else (Except.error "failed to write settings file", { bs with board := b1 })

/-- `LoadSettings` lifted to the board-plus-store state: it reads the store
and never writes it. -/
def LoadSettingsSt (bs : BoardSt) : Except String BoardSt :=
  match LoadSettings bs.store bs.board with
  | Except.error e => Except.error e
  | Except.ok b1 => Except.ok { board := b1, store := bs.store }

/-! ## Capability registration across connect / reconnect —
`internal/wamp/client.go`, `internal/lightningrod/lightningrod.go`, and each
manager's `registerRPCs` -/

/-- The ten RPC verbs exposed by the device, service and webservice
managers. -/
def managerVerbs : List String :=
  ["DevicePing", "DeviceInfo", "DeviceStatus",
   "ExposeService", "UnexposeService", "ServicesList",
   "EnableWebService", "DisableWebService", "WebServicesList", "ProxyInfo"]

/-- `fmt.Sprintf("iotronic.%s.%s.<Verb>", m.board.SessionID, m.board.UUID)`. -/
def procName (sessionID uuid verb : String) : String :=
  "iotronic." ++ sessionID ++ "." ++ uuid ++ "." ++ verb

/-- Events of the session / registration lifecycle:
`connect sid` is a successful `wamp.Client.Connect` (the router assigned
session id `sid`); `startManagers` is `lightningrod.initializeModules`, in
which every manager's `Start` runs `registerRPCs`; `reconnect sid` is a
successful `wamp.Client.Reconnect` from the `KeepAlive` loop (disconnect,
fixed delay, connect assigning `sid`). -/
inductive SysEvent
  | connect (sid : String)
  | startManagers
  | reconnect (sid : String)
deriving DecidableEq, Repr

/-- The session-lifecycle state: `board.SessionID` and the set of procedure
URIs currently registered with the router. -/
structure SysState where
  sessionID : String
  registered : List String
deriving DecidableEq, Repr

/-- One lifecycle step.  `Connect` stores the new session id into the board
(client.go: `c.board.SessionID = fmt.Sprintf("%d", c.sessionID)`) and
registers nothing; `initializeModules` makes each manager register its verbs
under the current `board.SessionID`; `Reconnect` is disconnect + delay +
`Connect` — it stores the new session id and, like `Connect`, registers
nothing (no manager re-runs `registerRPCs`). -/
def sysStep (uuid : String) (s : SysState) : SysEvent → SysState
  | SysEvent.connect sid => { s with sessionID := sid }
  | SysEvent.startManagers =>
      { s with registered :=
          s.registered ++ managerVerbs.map (fun v => procName s.sessionID uuid v) }
  | SysEvent.reconnect sid => { s with sessionID := sid }

/-- Run a sequence of lifecycle events. -/
def sysRun (uuid : String) (s0 : SysState) (evs : List SysEvent) : SysState :=
  evs.foldl (sysStep uuid) s0

/-! ## Claim theorems -/

/-- C1: whenever `enableWebService(name, localPort, publicPort)` reaches the
proxy validation / reload step and that step fails (either `nginx -t` or
`nginx -s reload`), the operation returns an error, the configuration
artifact written for that name no longer exists on disk afterwards, and the
webservice registry is exactly as before the call — in particular it has no
entry for that name: the enable is atomic. -/
theorem enable_webservice_rollback_atomic
    (env : NginxEnv) (s : WsState) (name : String) (lp pp : Int)
    (habs : SM.lookup s.webservices name = none)
    (hw : env.writeOk = true)
    (hfail : env.testOk = false ∨ env.reloadOk = false) :
    (∃ e, (enableWebService env s name lp pp).1 = Except.error e) ∧
    SM.lookup (enableWebService env s name lp pp).2.fs (confPath name) = none ∧
    (enableWebService env s name lp pp).2.webservices = s.webservices := by
  have hrel : ∃ e, reloadNginx env = Except.error e := by
    by_cases ht : env.testOk = false
    · exact ⟨"nginx config test failed", by simp [reloadNginx, ht]⟩
    · rcases hfail with h | h
      · exact absurd h ht
      · exact ⟨"nginx reload failed", by simp [reloadNginx, ht, h]⟩
  obtain ⟨e, he⟩ := hrel
  refine ⟨⟨"failed to reload nginx: " ++ e, ?_⟩, ?_, ?_⟩ <;>
    simp [enableWebService, habs, hw, he, SM.lookup_erase_self]

/-- Witness for C1: a concrete run in which `nginx -t` fails. -/
theorem enable_webservice_rollback_atomic_witness :
    SM.lookup (WsState.webservices { webservices := [], fs := [] }) "api" = none ∧
    NginxEnv.writeOk { writeOk := true, testOk := false, reloadOk := true } = true ∧
    ((∃ e, (enableWebService { writeOk := true, testOk := false, reloadOk := true }
        { webservices := [], fs := [] } "api" 3000 9000).1 = Except.error e) ∧
     SM.lookup (enableWebService { writeOk := true, testOk := false, reloadOk := true }
        { webservices := [], fs := [] } "api" 3000 9000).2.fs (confPath "api") = none ∧
     (enableWebService { writeOk := true, testOk := false, reloadOk := true }
        { webservices := [], fs := [] } "api" 3000 9000).2.webservices =
       WsState.webservices { webservices := [], fs := [] }) :=
  ⟨rfl, rfl,
   enable_webservice_rollback_atomic { writeOk := true, testOk := false, reloadOk := true }
     { webservices := [], fs := [] } "api" 3000 9000 rfl rfl (Or.inl rfl)⟩

/-- C3: for all names `n` and ports, calling `ExposeService(n, p)` twice
without an intervening `UnexposeService(n)` succeeds the first time (given
that the tunnel spawn succeeds) and fails the second time with the
already-exposed error; afterwards the registry holds exactly one entry for
`n` — the first call's entry, with status `"running"` and a non-empty
public URL — and the second call leaves the state untouched. -/
theorem expose_service_twice_second_fails
    (env env2 : SvcEnv) (s : SvcState) (n : String) (p p2 : Int)
    (habs : SM.lookup s.services n = none)
    (hsp : env.spawnOk = true) :
    (exposeService env s n p).1 = Except.ok () ∧
    (exposeService env2 (exposeService env s n p).2 n p2).1 =
      Except.error ("service " ++ n ++ " already exposed") ∧
    (exposeService env2 (exposeService env s n p).2 n p2).2 = (exposeService env s n p).2 ∧
    SM.lookup (exposeService env2 (exposeService env s n p).2 n p2).2.services n =
      some { name := n, localPort := p, publicURL := env.wstunURL ++ "/" ++ n,
             pid := env.spawnPid, status := "running" } ∧
    SM.count (exposeService env2 (exposeService env s n p).2 n p2).2.services n = 1 ∧
    env.wstunURL ++ "/" ++ n ≠ "" := by
  have hs2 : (exposeService env s n p).2.services = SM.insert s.services n
      { name := n, localPort := p, publicURL := env.wstunURL ++ "/" ++ n,
        pid := env.spawnPid, status := "running" } := by
    by_cases hsave : env.saveOk <;> simp [exposeService, habs, hsp, hsave]
  have h1 : (exposeService env s n p).1 = Except.ok () := by
    simp [exposeService, habs, hsp]
  have hlook : SM.lookup (exposeService env s n p).2.services n =
      some { name := n, localPort := p, publicURL := env.wstunURL ++ "/" ++ n,
             pid := env.spawnPid, status := "running" } := by
    rw [hs2]; exact SM.lookup_insert_self ..
  have h2 : exposeService env2 (exposeService env s n p).2 n p2 =
      (Except.error ("service " ++ n ++ " already exposed"), (exposeService env s n p).2) := by
    generalize hst : (exposeService env s n p).2 = st at hlook ⊢
    simp [exposeService, hlook]
  have hcnt : SM.count (exposeService env s n p).2.services n = 1 := by
    rw [hs2]; exact SM.count_insert_self ..
  have hne : env.wstunURL ++ "/" ++ n ≠ "" := by
    intro h
    have hlen := congrArg String.length h
    rw [String.length_append, String.length_append] at hlen
    have hslash : String.length "/" = 1 := rfl
    have hnil : String.length "" = 0 := rfl
    rw [hslash, hnil] at hlen
    omega
  rw [h2]
  exact ⟨h1, rfl, rfl, hlook, hcnt, hne⟩

/-- Witness for C3: a concrete double expose of `"web"` on port 8080. -/
theorem expose_service_twice_second_fails_witness :
    SM.lookup (SvcState.services { services := [], servicesDoc := none }) "web" = none ∧
    SvcEnv.spawnOk { spawnOk := true, spawnPid := 7, saveOk := true, wstunURL := "ws://h:8080" } = true ∧
    ((exposeService { spawnOk := true, spawnPid := 7, saveOk := true, wstunURL := "ws://h:8080" }
        { services := [], servicesDoc := none } "web" 8080).1 = Except.ok () ∧
     (exposeService { spawnOk := true, spawnPid := 7, saveOk := true, wstunURL := "ws://h:8080" }
        (exposeService { spawnOk := true, spawnPid := 7, saveOk := true, wstunURL := "ws://h:8080" }
          { services := [], servicesDoc := none } "web" 8080).2 "web" 8080).1 =
       Except.error ("service " ++ "web" ++ " already exposed") ∧
     (exposeService { spawnOk := true, spawnPid := 7, saveOk := true, wstunURL := "ws://h:8080" }
        (exposeService { spawnOk := true, spawnPid := 7, saveOk := true, wstunURL := "ws://h:8080" }
          { services := [], servicesDoc := none } "web" 8080).2 "web" 8080).2 =
       (exposeService { spawnOk := true, spawnPid := 7, saveOk := true, wstunURL := "ws://h:8080" }
          { services := [], servicesDoc := none } "web" 8080).2 ∧
     SM.lookup (exposeService { spawnOk := true, spawnPid := 7, saveOk := true, wstunURL := "ws://h:8080" }
        (exposeService { spawnOk := true, spawnPid := 7, saveOk := true, wstunURL := "ws://h:8080" }
          { services := [], servicesDoc := none } "web" 8080).2 "web" 8080).2.services "web" =
       some { name := "web", localPort := 8080, publicURL := "ws://h:8080" ++ "/" ++ "web",
              pid := 7, status := "running" } ∧
     SM.count (exposeService { spawnOk := true, spawnPid := 7, saveOk := true, wstunURL := "ws://h:8080" }
        (exposeService { spawnOk := true, spawnPid := 7, saveOk := true, wstunURL := "ws://h:8080" }
          { services := [], servicesDoc := none } "web" 8080).2 "web" 8080).2.services "web" = 1 ∧
     "ws://h:8080" ++ "/" ++ "web" ≠ "") :=
  ⟨rfl, rfl,
   expose_service_twice_second_fails
     { spawnOk := true, spawnPid := 7, saveOk := true, wstunURL := "ws://h:8080" }
     { spawnOk := true, spawnPid := 7, saveOk := true, wstunURL := "ws://h:8080" }
     { services := [], servicesDoc := none } "web" 8080 8080 rfl rfl⟩

/-- C4: `UnexposeService(n)` on a name absent from the service registry
fails with the not-found error and returns the state — the in-memory map
and the persisted `services.json` document — completely unchanged. -/
theorem unexpose_absent_not_found
    (env : SvcEnv) (s : SvcState) (n : String)
    (habs : SM.lookup s.services n = none) :
    unexposeService env s n = (Except.error ("service " ++ n ++ " not found"), s) := by
  simp [unexposeService, stopService, habs]

/-- Witness for C4: unexposing `"web"` from an empty registry. -/
theorem unexpose_absent_not_found_witness :
    SM.lookup (SvcState.services { services := [], servicesDoc := some [] }) "web" = none ∧
    unexposeService { spawnOk := true, spawnPid := 7, saveOk := true, wstunURL := "ws://h:8080" }
      { services := [], servicesDoc := some [] } "web" =
      (Except.error ("service " ++ "web" ++ " not found"),
       { services := [], servicesDoc := some [] }) :=
  ⟨rfl,
   unexpose_absent_not_found
     { spawnOk := true, spawnPid := 7, saveOk := true, wstunURL := "ws://h:8080" }
     { services := [], servicesDoc := some [] } "web" rfl⟩

/-- C9: `DisableWebService(name)` on a registered name whose configuration
artifact is already missing does not return an error: the removal tolerates
the absent artifact, the best-effort nginx reload may fail in any way
(`env` is unconstrained), and the registry entry is removed. -/
theorem disable_webservice_idempotent_missing_artifact
    (env : NginxEnv) (s : WsState) (n : String)
    (hpres : (SM.lookup s.webservices n).isSome = true)
    (_hmiss : SM.lookup s.fs (confPath n) = none) :
    (disableWebService env s n).1 = Except.ok () ∧
    SM.lookup (disableWebService env s n).2.webservices n = none := by
  have hnn : (SM.lookup s.webservices n).isNone = false := by
    cases h : SM.lookup s.webservices n <;> simp_all
  simp [disableWebService, removeWebService, hnn, SM.lookup_erase_self]

/-- Witness for C9: disabling `"w"` whose artifact is absent while every
nginx step fails. -/
theorem disable_webservice_idempotent_missing_artifact_witness :
    (SM.lookup (WsState.webservices
        { webservices := [("w", { name := "w", localPort := 1, publicPort := 2,
                                  domain := "", status := "enabled" })], fs := [] }) "w").isSome = true ∧
    SM.lookup (WsState.fs
        { webservices := [("w", { name := "w", localPort := 1, publicPort := 2,
                                  domain := "", status := "enabled" })], fs := [] }) (confPath "w") = none ∧
    ((disableWebService { writeOk := false, testOk := false, reloadOk := false }
        { webservices := [("w", { name := "w", localPort := 1, publicPort := 2,
                                  domain := "", status := "enabled" })], fs := [] } "w").1 =
       Except.ok () ∧
     SM.lookup (disableWebService { writeOk := false, testOk := false, reloadOk := false }
        { webservices := [("w", { name := "w", localPort := 1, publicPort := 2,
                                  domain := "", status := "enabled" })], fs := [] } "w").2.webservices "w" =
       none) :=
  ⟨rfl, rfl,
   disable_webservice_idempotent_missing_artifact
     { writeOk := false, testOk := false, reloadOk := false }
     { webservices := [("w", { name := "w", localPort := 1, publicPort := 2,
                               domain := "", status := "enabled" })], fs := [] } "w" rfl rfl⟩

/-- Settings document used for the C5 counterexample: no main-agent
endpoint, `Status = "online"`, a normal (non-sentinel) code. -/
def c5Settings : BoardSettings :=
  { iotronic :=
    { board := { uuid := "u-1", code := "abc", name := "b1", status := "online",
                 btype := "generic", mobile := false, agent := "wagent",
                 createdAt := "", updatedAt := "", location := [], extra := [] },
      wamp := { mainAgent := none,
                registrationAgent := some { url := "wss://reg", realm := "s4t" } },
      extra := [] } }

/-- C5 counterexample: with no primary endpoint and `Status = "online"`,
`LoadSettings` does force `Status = "first_boot"` and selects no endpoint,
but it returns success — no error is surfaced to the caller (the Go
`loadWampConfig` only logs and returns nothing, and `LoadSettings` returns
`nil`), refuting the claim's error-surfacing part. -/
theorem endpoint_selection_failure_returns_no_error :
    (LoadSettings (some c5Settings) emptyBoard).toOption.map Board.status =
      some "first_boot" ∧
    (LoadSettings (some c5Settings) emptyBoard).toOption.map Board.wampConfig =
      some none ∧
    (LoadSettings (some c5Settings) emptyBoard).toOption.isSome = true := by
  decide

/-- C5 as amended: endpoint selection on settings load prefers a present
primary (main-agent) endpoint; otherwise, when `Status` is one of `""`,
`"registered"`, `"first_boot"`, the registration endpoint is selected;
otherwise no endpoint is selected (`WampConfig` is left as it was, `none`
on a fresh board), `Status` is forced to `"first_boot"`, and the error is
only logged — `LoadSettings` still reports success whenever the settings
document could be read. -/
theorem endpoint_selection_amended
    (st : BoardSettings) (b : Board) :
    (∀ ag, st.iotronic.wamp.mainAgent = some ag →
       (loadWampConfig st b).wampConfig = some ag) ∧
    (st.iotronic.wamp.mainAgent = none →
       (b.status = "" ∨ b.status = "registered" ∨ b.status = "first_boot") →
       (loadWampConfig st b).wampConfig = st.iotronic.wamp.registrationAgent) ∧
    (st.iotronic.wamp.mainAgent = none →
       ¬(b.status = "" ∨ b.status = "registered" ∨ b.status = "first_boot") →
       (loadWampConfig st b).wampConfig = b.wampConfig ∧
       (loadWampConfig st b).status = "first_boot") ∧
    (∀ st2 b2, ((LoadSettings (some st2) b2).toOption.isSome = true)) := by
  refine ⟨?_, ?_, ?_, ?_⟩
  · intro ag hag
    simp [loadWampConfig, hag]
  · intro hma hst
    simp [loadWampConfig, hma, hst]
  · intro hma hst
    simp [loadWampConfig, hma, hst]
  · intro st2 b2
    simp [LoadSettings, Except.toOption]

/-- Witness for C5 (amended): all three selection branches plus the
no-error part at concrete inputs. -/
theorem endpoint_selection_amended_witness :
    ((c5Settings.iotronic.wamp.mainAgent = none →
       ¬(Board.status emptyBoard = "" ∨ Board.status emptyBoard = "registered" ∨
         Board.status emptyBoard = "first_boot") →
       (loadWampConfig c5Settings emptyBoard).wampConfig = Board.wampConfig emptyBoard ∧
       (loadWampConfig c5Settings emptyBoard).status = "first_boot") ∧
     (loadWampConfig c5Settings { emptyBoard with status := "online" }).wampConfig =
       Board.wampConfig { emptyBoard with status := "online" } ∧
     (loadWampConfig c5Settings { emptyBoard with status := "online" }).status = "first_boot" ∧
     (loadWampConfig c5Settings { emptyBoard with status := "registered" }).wampConfig =
       c5Settings.iotronic.wamp.registrationAgent ∧
     (LoadSettings (some c5Settings) emptyBoard).toOption.isSome = true) :=
  ⟨(endpoint_selection_amended c5Settings emptyBoard).2.2.1,
   ((endpoint_selection_amended c5Settings { emptyBoard with status := "online" }).2.2.1
      rfl (by decide)).1,
   ((endpoint_selection_amended c5Settings { emptyBoard with status := "online" }).2.2.1
      rfl (by decide)).2,
   (endpoint_selection_amended c5Settings { emptyBoard with status := "registered" }).2.1
      rfl (Or.inr (Or.inl rfl)),
   (endpoint_selection_amended c5Settings emptyBoard).2.2.2 c5Settings emptyBoard⟩

/-- Environment in which every nginx step succeeds, used for the C6
counterexample. -/
def envAllOk : NginxEnv := { writeOk := true, testOk := true, reloadOk := true }

/-- C6 counterexample: a successful `EnableWebService("api", 3000, 9000)`
creation starting from an empty disk leaves exactly one file — the nginx
configuration artifact, which is not a JSON document — so the webservice
manager's "persisted registry document" is never written: the webservice
registry lives only in memory (only the tunnel-service manager persists a
registry, `services.json`). -/
theorem enable_webservice_writes_no_registry_document :
    (enableWebService envAllOk { webservices := [], fs := [] } "api" 3000 9000).2.fs =
      [("/etc/nginx/conf.d/lr_api.conf", nginxConf 9000 3000)] ∧
    (String.data "/etc/nginx/conf.d/lr_api.conf").reverse.take 5 ≠
      (String.data ".json").reverse ∧
    (SM.lookup (enableWebService envAllOk { webservices := [], fs := [] } "api" 3000 9000).2.webservices
      "api").isSome = true := by
  refine ⟨rfl, ?_, rfl⟩
  decide

/-- C6 as amended: only the service (tunnel) manager maintains a persisted
registry document — `services.json`, rewritten in full (to the complete
current map) on every successful save during ExposeService and
UnexposeService; the webservice manager keeps its registry in memory only:
`EnableWebService` touches no disk path other than its configuration
artifact `confPath name`, and `DisableWebService` touches no path other
than removing that artifact. -/
theorem registry_persistence_amended
    (envS : SvcEnv) (envN : NginxEnv) (sS : SvcState) (sW : WsState)
    (n m w : String) (lp pp : Int) (q : String) :
    (envS.saveOk = true → SM.lookup sS.services n = none → envS.spawnOk = true →
       (exposeService envS sS n lp).2.servicesDoc =
         some (exposeService envS sS n lp).2.services) ∧
    (envS.saveOk = true → (SM.lookup sS.services m).isSome = true →
       (stopService envS sS m).2.servicesDoc =
         some (stopService envS sS m).2.services) ∧
    (q ≠ confPath w →
       SM.lookup (enableWebService envN sW w lp pp).2.fs q = SM.lookup sW.fs q) ∧
    (q ≠ confPath w →
       SM.lookup (removeWebService envN sW w).2.fs q = SM.lookup sW.fs q) := by
  refine ⟨?_, ?_, ?_, ?_⟩
  · intro hsave habs hsp
    simp [exposeService, habs, hsp, hsave]
  · intro hsave hpres
    have hnn : (SM.lookup sS.services m).isNone = false := by
      cases h : SM.lookup sS.services m <;> simp_all
    simp [stopService, hnn, hsave]
  · intro hq
    have hq1 : confPath w ≠ q := fun h => hq h.symm
    by_cases hex : (SM.lookup sW.webservices w).isSome
    · simp [enableWebService, hex]
    · by_cases hw : envN.writeOk = false
      · simp [enableWebService, hex, hw]
      · cases hrel : reloadNginx envN with
        | error e =>
            simp [enableWebService, hex, hw, hrel, SM.lookup_erase_ne _ _ _ hq1,
              SM.lookup_insert_ne _ _ _ _ hq1]
        | ok u =>
            simp [enableWebService, hex, hw, hrel, SM.lookup_insert_ne _ _ _ _ hq1]
  · intro hq
    have hq1 : confPath w ≠ q := fun h => hq h.symm
    by_cases hex : (SM.lookup sW.webservices w).isNone
    · simp [removeWebService, hex]
    · simp [removeWebService, hex, SM.lookup_erase_ne _ _ _ hq1]

/-- Witness for C6 (amended): concrete expose / stop and enable / remove
runs. -/
theorem registry_persistence_amended_witness :
    ((exposeService { spawnOk := true, spawnPid := 7, saveOk := true, wstunURL := "ws://h:8080" }
        { services := [], servicesDoc := none } "web" 8080).2.servicesDoc =
       some (exposeService { spawnOk := true, spawnPid := 7, saveOk := true, wstunURL := "ws://h:8080" }
        { services := [], servicesDoc := none } "web" 8080).2.services) ∧
    (SM.lookup (enableWebService envAllOk { webservices := [], fs := [("/other.txt", "x")] }
        "api" 3000 9000).2.fs "/other.txt" =
       SM.lookup (WsState.fs { webservices := [], fs := [("/other.txt", "x")] }) "/other.txt") :=
  ⟨(registry_persistence_amended
      { spawnOk := true, spawnPid := 7, saveOk := true, wstunURL := "ws://h:8080" }
      envAllOk { services := [], servicesDoc := none } { webservices := [], fs := [] }
      "web" "web" "web" 8080 0 "/q").1 rfl rfl rfl,
   (registry_persistence_amended
      { spawnOk := true, spawnPid := 7, saveOk := true, wstunURL := "ws://h:8080" }
      envAllOk { services := [], servicesDoc := none }
      { webservices := [], fs := [("/other.txt", "x")] }
      "api" "api" "api" 3000 9000 "/other.txt").2.2.1 (by decide)⟩

/-- Environment in which the wstun spawn succeeds but the `services.json`
write fails; used for the C7 counterexample. -/
def envSaveFail : SvcEnv :=
  { spawnOk := true, spawnPid := 7, saveOk := false, wstunURL := "ws://h:8080" }

/-- C7 counterexample: `ExposeService("web", 8080)` with a failing
persistence write returns success — the I/O error is not surfaced to the
caller (the Go code only calls `log.Warnf` and returns `nil`) — while the
in-memory entry exists and the persisted document is left stale, refuting
the claim's surfacing part. -/
theorem persistence_error_not_surfaced :
    (exposeService envSaveFail { services := [], servicesDoc := some [] } "web" 8080).1 =
      Except.ok () ∧
    (exposeService envSaveFail { services := [], servicesDoc := some [] } "web" 8080).2.servicesDoc =
      some [] ∧
    (SM.lookup (exposeService envSaveFail { services := [], servicesDoc := some [] }
      "web" 8080).2.services "web").isSome = true := by
  decide

/-- C7 as amended: when the persistence write of `services.json` fails
during `ExposeService` or `UnexposeService`, the error is logged and
swallowed — the operation still returns success — while the in-memory
mutation is kept (not rolled back) and the persisted document is left
unchanged (applied but not durable). -/
theorem persistence_failure_swallowed_state_kept
    (env : SvcEnv) (s : SvcState) (n m : String) (p : Int)
    (hsave : env.saveOk = false) :
    (SM.lookup s.services n = none → env.spawnOk = true →
       (exposeService env s n p).1 = Except.ok () ∧
       SM.lookup (exposeService env s n p).2.services n =
         some { name := n, localPort := p, publicURL := env.wstunURL ++ "/" ++ n,
                pid := env.spawnPid, status := "running" } ∧
       (exposeService env s n p).2.servicesDoc = s.servicesDoc) ∧
    ((SM.lookup s.services m).isSome = true →
       (stopService env s m).1 = Except.ok () ∧
       SM.lookup (stopService env s m).2.services m = none ∧
       (stopService env s m).2.servicesDoc = s.servicesDoc) := by
  constructor
  · intro habs hsp
    refine ⟨?_, ?_, ?_⟩ <;>
      simp [exposeService, habs, hsp, hsave, SM.lookup_insert_self]
  · intro hpres
    have hnn : (SM.lookup s.services m).isNone = false := by
      cases h : SM.lookup s.services m <;> simp_all
    refine ⟨?_, ?_, ?_⟩ <;>
      simp [stopService, hnn, hsave, SM.lookup_erase_self]

/-- Witness for C7 (amended): a concrete expose and stop with the
persistence write failing. -/
theorem persistence_failure_swallowed_state_kept_witness :
    SvcEnv.saveOk envSaveFail = false ∧
    ((exposeService envSaveFail { services := [], servicesDoc := some [] } "web" 8080).1 =
       Except.ok () ∧
     SM.lookup (exposeService envSaveFail { services := [], servicesDoc := some [] }
        "web" 8080).2.services "web" =
       some { name := "web", localPort := 8080,
              publicURL := SvcEnv.wstunURL envSaveFail ++ "/" ++ "web",
              pid := SvcEnv.spawnPid envSaveFail, status := "running" } ∧
     (exposeService envSaveFail { services := [], servicesDoc := some [] }
        "web" 8080).2.servicesDoc =
       SvcState.servicesDoc { services := [], servicesDoc := some [] }) ∧
    ((stopService envSaveFail
        { services := [("w", { name := "w", localPort := 1, publicURL := "u",
                               pid := 2, status := "running" })],
          servicesDoc := some [] } "w").1 = Except.ok () ∧
     SM.lookup (stopService envSaveFail
        { services := [("w", { name := "w", localPort := 1, publicURL := "u",
                               pid := 2, status := "running" })],
          servicesDoc := some [] } "w").2.services "w" = none ∧
     (stopService envSaveFail
        { services := [("w", { name := "w", localPort := 1, publicURL := "u",
                               pid := 2, status := "running" })],
          servicesDoc := some [] } "w").2.servicesDoc =
       SvcState.servicesDoc
         { services := [("w", { name := "w", localPort := 1, publicURL := "u",
                                pid := 2, status := "running" })],
           servicesDoc := some [] }) :=
  ⟨rfl,
   (persistence_failure_swallowed_state_kept envSaveFail
      { services := [], servicesDoc := some [] } "web" "web" 8080 rfl).1 rfl rfl,
   (persistence_failure_swallowed_state_kept envSaveFail
      { services := [("w", { name := "w", localPort := 1, publicURL := "u",
                             pid := 2, status := "running" })],
        servicesDoc := some [] } "w" "w" 8080 rfl).2 rfl⟩

/-- Settings document used for the C8 counterexample: persisted status
`"online"`, no main-agent endpoint, a normal (non-sentinel) code. -/
def c8Settings : BoardSettings :=
  { iotronic :=
    { board := { uuid := "u-2", code := "xyz", name := "b2", status := "online",
                 btype := "generic", mobile := false, agent := "wagent",
                 createdAt := "", updatedAt := "", location := [], extra := [] },
      wamp := { mainAgent := none,
                registrationAgent := some { url := "wss://reg", realm := "s4t" } },
      extra := [] } }

/-- C8 counterexample: loading settings whose persisted status is
`"online"` with no primary endpoint forces the in-memory status to
`"first_boot"` (endpoint-selection failure), but the settings store is not
written — it still says `"online"` — so after the load the in-memory
status disagrees with the persisted one, refuting the claim that every
status change is persisted synchronously. -/
theorem status_change_on_load_not_persisted :
    (LoadSettingsSt { board := emptyBoard, store := some c8Settings }).toOption.map
        (fun bs => bs.board.status) = some "first_boot" ∧
    (LoadSettingsSt { board := emptyBoard, store := some c8Settings }).toOption.map
        (fun bs => bs.store.map (fun st => st.iotronic.board.status)) =
      some (some "online") := by
  decide

/-- C8 as amended: status changes made through `UpdateStatus` are
write-through — in-memory and persisted status agree right after a
successful call — but the status changes `LoadSettings` makes itself
(endpoint-selection failure, first-boot detection) are in-memory only: the
settings store is never written during a load, so the in-memory status can
disagree with the persisted one afterwards. -/
theorem update_status_write_through_load_in_memory_only
    (bs bs2 : BoardSt) (st : String) (out : BoardSt) :
    ((UpdateStatus true bs st).1 = Except.ok () ∧
     (UpdateStatus true bs st).2.board.status = st ∧
     (UpdateStatus true bs st).2.store = some (UpdateStatus true bs st).2.board.settings ∧
     (UpdateStatus true bs st).2.board.settings.iotronic.board.status = st) ∧
    (LoadSettingsSt bs2 = Except.ok out → out.store = bs2.store) := by
  constructor
  · exact ⟨rfl, rfl, rfl, rfl⟩
  · intro h
    unfold LoadSettingsSt at h
    cases hl : LoadSettings bs2.store bs2.board with
    | error e => rw [hl] at h; exact absurd h (by simp)
    | ok b1 =>
        rw [hl] at h
        have h2 : ({ board := b1, store := bs2.store } : BoardSt) = out := Except.ok.inj h
        rw [← h2]

/-- Witness for C8 (amended): a concrete successful `UpdateStatus` and a
concrete load. -/
theorem update_status_write_through_load_in_memory_only_witness :
    ((UpdateStatus true { board := emptyBoard, store := some c8Settings } "online").1 =
       Except.ok () ∧
     (UpdateStatus true { board := emptyBoard, store := some c8Settings } "online").2.board.status =
       "online" ∧
     (UpdateStatus true { board := emptyBoard, store := some c8Settings } "online").2.store =
       some (UpdateStatus true { board := emptyBoard, store := some c8Settings } "online").2.board.settings ∧
     (UpdateStatus true { board := emptyBoard, store := some c8Settings }
        "online").2.board.settings.iotronic.board.status = "online") ∧
    (LoadSettingsSt { board := emptyBoard, store := some c8Settings } =
       Except.ok { board := (LoadSettingsSt { board := emptyBoard, store := some c8Settings }).toOption.getD
                     { board := emptyBoard, store := none } |>.board,
                   store := some c8Settings } →
     BoardSt.store { board := (LoadSettingsSt { board := emptyBoard, store := some c8Settings }).toOption.getD
                       { board := emptyBoard, store := none } |>.board,
                     store := some c8Settings } =
       BoardSt.store { board := emptyBoard, store := some c8Settings }) :=
  ⟨(update_status_write_through_load_in_memory_only
      { board := emptyBoard, store := some c8Settings }
      { board := emptyBoard, store := some c8Settings } "online"
      { board := emptyBoard, store := some c8Settings }).1,
   (update_status_write_through_load_in_memory_only
      { board := emptyBoard, store := some c8Settings }
      { board := emptyBoard, store := some c8Settings } "online"
      { board := (LoadSettingsSt { board := emptyBoard, store := some c8Settings }).toOption.getD
           { board := emptyBoard, store := none } |>.board,
        store := some c8Settings }).2⟩

/-- C2: evaluation of the session-registration lifecycle at the failing
trace connect("101"); managers start; reconnect("202").  The managers
register their ten capability names under session "101" at startup only; a
successful reconnect stores the new session id "202" into the board but
re-runs no registration step (registration happens only inside each
manager's `Start`), so every registered name still embeds the prior session
identifier and no name under the new identifier exists — contradicting the
re-advertisement contract the spec states. -/
theorem capability_names_stale_after_reconnect :
    (sysRun "board-1" { sessionID := "", registered := [] }
      [SysEvent.connect "101", SysEvent.startManagers, SysEvent.reconnect "202"]).sessionID =
      "202" ∧
    (sysRun "board-1" { sessionID := "", registered := [] }
      [SysEvent.connect "101", SysEvent.startManagers, SysEvent.reconnect "202"]).registered =
      managerVerbs.map (fun v => procName "101" "board-1" v) ∧
    procName "202" "board-1" "DevicePing" ∉
      (sysRun "board-1" { sessionID := "", registered := [] }
        [SysEvent.connect "101", SysEvent.startManagers, SysEvent.reconnect "202"]).registered := by
  refine ⟨rfl, rfl, ?_⟩
  decide

/-- C10: an `EnableWebService` invocation with at least three arguments of
the wrong types proceeds silently — the non-string name coerces to `""` and
the non-numeric ports to `0` — writing the configuration artifact and
registry entry under the coerced name and reporting SUCCESS (given an
otherwise healthy proxy); whereas `ExposeService` rejects a wrongly typed
service name with an ERROR result and leaves its state untouched. -/
theorem enable_coerces_bad_args_expose_rejects
    (envN : NginxEnv) (sW : WsState) (args : List WArg)
    (envS : SvcEnv) (sS : SvcState) (args2 : List WArg)
    (hlen : 3 ≤ args.length)
    (h0 : (args.getD 0 WArg.other).asStringOk = none)
    (h1 : (args.getD 1 WArg.other).asFloatOk = none)
    (h2 : (args.getD 2 WArg.other).asFloatOk = none)
    (habs : SM.lookup sW.webservices "" = none)
    (hok : envN.writeOk = true ∧ envN.testOk = true ∧ envN.reloadOk = true)
    (hlen2 : 2 ≤ args2.length)
    (h02 : (args2.getD 0 WArg.other).asStringOk = none) :
    (handleEnableWebService envN sW args).1 =
      { result := "SUCCESS", message := "Webservice " ++ "" ++ " enabled" } ∧
    SM.lookup (handleEnableWebService envN sW args).2.webservices "" =
      some { name := "", localPort := 0, publicPort := 0, domain := "", status := "enabled" } ∧
    SM.lookup (handleEnableWebService envN sW args).2.fs (confPath "") =
      some (nginxConf 0 0) ∧
    (handleExposeService envS sS args2).1 =
      { result := "ERROR", message := "Invalid service_name type" } ∧
    (handleExposeService envS sS args2).2 = sS := by
  obtain ⟨hw, ht, hr⟩ := hok
  have hn : (args.getD 0 WArg.other).asString = "" := WArg.asString_of_not_string _ h0
  have hp1 : (args.getD 1 WArg.other).asFloat = 0 := WArg.asFloat_of_not_num _ h1
  have hp2 : (args.getD 2 WArg.other).asFloat = 0 := WArg.asFloat_of_not_num _ h2
  have hlen' : ¬ args.length < 3 := by omega
  have henable : enableWebService envN sW "" 0 0 =
      (Except.ok (),
       { webservices := SM.insert sW.webservices ""
           { name := "", localPort := 0, publicPort := 0, domain := "", status := "enabled" },
         fs := SM.insert sW.fs (confPath "") (nginxConf 0 0) }) := by
    simp [enableWebService, habs, hw, reloadNginx, ht, hr]
  have hh : handleEnableWebService envN sW args =
      ({ result := "SUCCESS", message := "Webservice " ++ "" ++ " enabled" },
       { webservices := SM.insert sW.webservices ""
           { name := "", localPort := 0, publicPort := 0, domain := "", status := "enabled" },
         fs := SM.insert sW.fs (confPath "") (nginxConf 0 0) }) := by
    simp only [handleEnableWebService]
    rw [if_neg hlen', hn, hp1, hp2, henable]
  have hlen2' : ¬ args2.length < 2 := by omega
  have hexp : handleExposeService envS sS args2 =
      ({ result := "ERROR", message := "Invalid service_name type" }, sS) := by
    simp only [handleExposeService]
    rw [if_neg hlen2', h02]
  rw [hh, hexp]
  exact ⟨rfl, SM.lookup_insert_self .., SM.lookup_insert_self .., rfl, rfl⟩

/-- Witness for C10: `EnableWebService(1, "a", other)` on a healthy proxy
versus `ExposeService(1, 2)`. -/
theorem enable_coerces_bad_args_expose_rejects_witness :
    3 ≤ ([WArg.num 1, WArg.str "a", WArg.other] : List WArg).length ∧
    2 ≤ ([WArg.num 1, WArg.num 2] : List WArg).length ∧
    ((handleEnableWebService envAllOk { webservices := [], fs := [] }
        [WArg.num 1, WArg.str "a", WArg.other]).1 =
       { result := "SUCCESS", message := "Webservice " ++ "" ++ " enabled" } ∧
     SM.lookup (handleEnableWebService envAllOk { webservices := [], fs := [] }
        [WArg.num 1, WArg.str "a", WArg.other]).2.webservices "" =
       some { name := "", localPort := 0, publicPort := 0, domain := "", status := "enabled" } ∧
     SM.lookup (handleEnableWebService envAllOk { webservices := [], fs := [] }
        [WArg.num 1, WArg.str "a", WArg.other]).2.fs (confPath "") =
       some (nginxConf 0 0) ∧
     (handleExposeService envSaveFail { services := [], servicesDoc := none }
        [WArg.num 1, WArg.num 2]).1 =
       { result := "ERROR", message := "Invalid service_name type" } ∧
     (handleExposeService envSaveFail { services := [], servicesDoc := none }
        [WArg.num 1, WArg.num 2]).2 =
       { services := [], servicesDoc := none }) :=
  ⟨by decide, by decide,
   enable_coerces_bad_args_expose_rejects envAllOk { webservices := [], fs := [] }
     [WArg.num 1, WArg.str "a", WArg.other] envSaveFail
     { services := [], servicesDoc := none } [WArg.num 1, WArg.num 2]
     (by decide) rfl rfl rfl rfl ⟨rfl, rfl, rfl⟩ (by decide) rfl⟩

end LightningRod
